import Mathlib

/-!
Verification of the Iroquois OAC scraper/loader pipeline
(`fetch_iroquois_oac.py`, `update_db.py`, `load_csv_to_supabase.py`)
against its design specification.

The Python scripts are shallowly embedded: Python values that flow through
the record normalizers are modelled by the inductive `Val`, fallible code by
`Except PyExc`, and the HTTP layer by an oracle giving the outcome of each
attempt.  Dates are modelled by a Gregorian-calendar `Date` structure (for
the incremental updater, which uses `timedelta` arithmetic) and by day
ordinals (for the backfill runner, which only steps a cursor one day at a
time and compares formatted dates for membership).
-/

namespace Spec2Proof

/-- A Python value as it appears in the scraper's record fields: JSON null /
`None`, an `int`, a `float` (modelled exactly as a rational - the scripts
never do float arithmetic, only parsing), or a `str`. -/
inductive Val where
  | none
  | int (n : Int)
  | float (q : Rat)
  | str (s : String)
deriving DecidableEq, Repr

/-- Python exceptions that the embedded code can raise or catch. -/
inductive PyExc where
  | valueError
  | keyError
  | nameError
  | requestException
deriving DecidableEq, Repr

/-- Digits of a numeral, most significant first, to a natural number. -/
def digitsToNat (cs : List Char) : Nat :=
  cs.foldl (fun a c => a * 10 + (c.toNat - 48)) 0

/-- `s.replace(",", "")`: remove every comma. -/
def stripCommas (s : String) : String :=
  String.mk (s.toList.filter (fun c => c ≠ ','))

/-- `s.strip()`: remove leading and trailing whitespace. -/
def pyStrip (s : String) : String :=
  String.mk
    (((s.toList.dropWhile Char.isWhitespace).reverse.dropWhile
        Char.isWhitespace).reverse)

/-- Model of CPython `int(s)` on a string: surrounding whitespace stripped,
an optional single sign, then one or more decimal digits; anything else
raises `ValueError` (here: `none`). -/
def pyInt (s : String) : Option Int :=
  let cs := (pyStrip s).toList
  let signed : Int × List Char :=
    match cs with
    | '+' :: r => (1, r)
    | '-' :: r => (-1, r)
    | r => (1, r)
  if signed.2 ≠ [] ∧ signed.2.all (·.isDigit) then
    some (signed.1 * (digitsToNat signed.2 : Int))
  else
    Option.none

/-- Model of CPython `float(s)` on a string, restricted to the finite
decimal forms `[sign] digits`, `[sign] digits . digits`, `[sign] . digits`
and `[sign] digits .` that the pipeline's data can contain (exponent,
infinity and NaN spellings are not modelled); the value is the exact
decimal, as a rational. -/
def pyFloat (s : String) : Option Rat :=
  let cs := (pyStrip s).toList
  let signed : Int × List Char :=
    match cs with
    | '+' :: r => (1, r)
    | '-' :: r => (-1, r)
    | r => (1, r)
  let ip := signed.2.takeWhile (·.isDigit)
  let rest := signed.2.dropWhile (·.isDigit)
  match rest with
  | [] =>
      if ip ≠ [] then some (mkRat (signed.1 * (digitsToNat ip : Int)) 1)
      else Option.none
  | '.' :: fp =>
      if fp.all (·.isDigit) ∧ (ip ≠ [] ∨ fp ≠ []) then
        some (mkRat
          (signed.1 * ((digitsToNat ip * 10 ^ fp.length + digitsToNat fp : Nat) : Int))
          (10 ^ fp.length))
      else Option.none
  | _ => Option.none

/-- Python truthiness for the values above (`bool(v)`). -/
def pyTruthy (v : Val) : Bool :=
  match v with
  | .none => false
  | .int n => n ≠ 0
  | .float q => q ≠ 0
  | .str s => s ≠ ""

/-- `v or None` as used in `update_db.fetch_day`. -/
def pyOrNone (v : Val) : Val :=
  if pyTruthy v then v else .none

/-- A raw response record: a Python dict from source field names to values,
as an association list (first binding wins on lookup). -/
abbrev RawRec := List (String × Val)

/-- `rec[k]` / `rec.get(k)` without a default: the first binding of `k`. -/
def pyGet (rec : List (String × Val)) (k : String) : Option Val :=
  (rec.find? (fun kv => kv.1 == k)).map (·.2)

/-- A proleptic-Gregorian calendar date, as `datetime.date`. -/
structure Date where
  year : Nat
  month : Nat
  day : Nat
deriving DecidableEq, Repr

/-- Gregorian leap-year rule (as implemented by `datetime`). -/
def isLeap (y : Nat) : Bool :=
  (y % 4 == 0 && y % 100 != 0) || (y % 400 == 0)

/-- Length of month `m` of year `y`. -/
def daysInMonth (y m : Nat) : Nat :=
  if m = 2 then (if isLeap y then 29 else 28)
  else if m = 4 ∨ m = 6 ∨ m = 9 ∨ m = 11 then 30
  else 31

/-- The previous calendar day: `d - timedelta(days=1)`. -/
def Date.prev (d : Date) : Date :=
  if 1 < d.day then ⟨d.year, d.month, d.day - 1⟩
  else if 1 < d.month then ⟨d.year, d.month - 1, daysInMonth d.year (d.month - 1)⟩
  else ⟨d.year - 1, 12, 31⟩

/-- `d - timedelta(days=n)`. -/
def Date.subDays (d : Date) : Nat → Date
  | 0 => d
  | n + 1 => (d.subDays n).prev

/-- Zero-pad to two digits (`%m`, `%d`). -/
def pad2 (n : Nat) : String :=
  if n < 10 then "0" ++ toString n else toString n

/-- Zero-pad to four digits (`%Y`). -/
def pad4 (n : Nat) : String :=
  if n < 10 then "000" ++ toString n
  else if n < 100 then "00" ++ toString n
  else if n < 1000 then "0" ++ toString n
  else toString n

/-- `d.strftime("%Y-%m-%d")`, the `gas_date` string. -/
def Date.iso (d : Date) : String :=
  pad4 d.year ++ "-" ++ pad2 d.month ++ "-" ++ pad2 d.day

/-- The keep-predicate of both `fetch_day` loops:
`rec.get("statusCode") not in (None, 1)` means the record is dropped, so a
record is kept when `statusCode` is absent, `None`, or (numerically) equal
to 1 — Python `==` equates `1` with `1.0`, while a string never equals the
int `1`. -/
def statusOk (rec : RawRec) : Bool :=
  match (pyGet rec "statusCode").getD .none with
  | .none => true
  | .int n => n == 1
  | .float q => q == 1
  | .str _ => false

namespace UpdateDb

/-- Embedding of `update_db.clean_numeric`: for a string, strip commas and
whitespace, try `int`, fall back to `float`; a string that parses as
neither is returned unchanged unless it is the empty string, which (like
every other falsy-compared-to-`""` case, i.e. only `""` itself) becomes
`None`.  Non-strings pass through, except that the final
`value if value != "" else None` keeps `None` as `None`. -/
def clean_numeric (v : Val) : Val :=
  match v with
  | .str s =>
      let stripped := pyStrip (stripCommas s)
      match pyInt stripped with
      | some n => .int n
      | Option.none =>
          match pyFloat stripped with
          | some q => .float q
          | Option.none => if s = "" then .none else .str s
  | other => other

/-- `update_db.COL_MAP`: source CSV labels to snake-case store columns. -/
def COL_MAP : List (String × String) :=
  [("Posting Date", "posting_date"),
   ("Posting Time", "posting_time"),
   ("Loc", "loc"),
   ("Loc Name", "loc_name"),
   ("Loc/QTI Desc", "loc_qti_desc"),
   ("Loc Purp Desc", "loc_purp_desc"),
   ("Flow Ind Desc", "flow_ind_desc"),
   ("Meas Basis Desc", "meas_basis_desc"),
   ("IT Indicator", "it_indicator"),
   ("All Qty Avail", "all_qty_avail"),
   ("Design Capacity", "design_capacity"),
   ("Operating Capacity", "operating_capacity"),
   ("Total Scheduled Quantity", "total_scheduled_quantity"),
   ("OAC", "oac")]

/-- `update_db.NUMERIC_COLS`. -/
def NUMERIC_COLS : List String :=
  ["design_capacity", "operating_capacity", "total_scheduled_quantity",
   "oac", "loc"]

/-- One iteration of the row-building loop in `update_db.fetch_day`
(lines 146-150): start from `{"gas_date": gas_date_str}`, then for each
`(csv_col, db_col)` of `COL_MAP` set
`row[db_col] = clean_numeric(val) if db_col in NUMERIC_COLS else (val or None)`
with `val = rec.get(csv_col, "")`. -/
def buildRow (gasDateStr : String) (rec : RawRec) : RawRec :=
  ("gas_date", .str gasDateStr) ::
    COL_MAP.map (fun p =>
      (p.2,
        let val := (pyGet rec p.1).getD (.str "")
        if NUMERIC_COLS.contains p.2 then clean_numeric val else pyOrNone val))

/-- The record loop of `update_db.fetch_day` (lines 142-150): drop records
with a non-success `statusCode`, build a row from each kept record. -/
def processRecs (gasDateStr : String) (records : List RawRec) : List RawRec :=
  (records.filter statusOk).map (buildRow gasDateStr)

end UpdateDb

namespace FetchCsv

/-- Embedding of `fetch_iroquois_oac.clean_numeric`: same comma/whitespace
stripping and `int`-then-`float` parse attempts, but on success it returns
the *stripped string* (the CSV keeps strings), and on failure the original
value unchanged (so `""` stays `""`). -/
def clean_numeric (v : Val) : Val :=
  match v with
  | .str s =>
      let stripped := pyStrip (stripCommas s)
      if (pyInt stripped).isSome then .str stripped
      else if (pyFloat stripped).isSome then .str stripped
      else .str s
  | other => other

/-- `fetch_iroquois_oac.CSV_COLUMNS`, the CSV header order. -/
def CSV_COLUMNS : List String :=
  ["gas_date", "Posting Date", "Posting Time", "Loc", "Loc Name",
   "Loc/QTI Desc", "Loc Purp Desc", "Flow Ind Desc", "Meas Basis Desc",
   "IT Indicator", "All Qty Avail", "Design Capacity", "Operating Capacity",
   "Total Scheduled Quantity", "OAC"]

/-- One iteration of the row-building loop in `fetch_iroquois_oac.fetch_day`
(lines 145-151): start from `{"gas_date": gas_date_str}`, then for each
column after `gas_date`, `out[col] = clean_numeric(rec[col])` when the field
is present and `out[col] = ""` when it is absent. -/
def buildRow (gasDateStr : String) (rec : RawRec) : RawRec :=
  ("gas_date", .str gasDateStr) ::
    CSV_COLUMNS.tail.map (fun col =>
      (col,
        match pyGet rec col with
        | some v => clean_numeric v
        | Option.none => .str ""))

/-- The record loop of `fetch_iroquois_oac.fetch_day` (lines 140-151). -/
def processRecs (gasDateStr : String) (records : List RawRec) : List RawRec :=
  (records.filter statusOk).map (buildRow gasDateStr)

end FetchCsv

/-- Outcome of one HTTP attempt as observed by `fetch_day`: a transport
failure (`requests.exceptions.RequestException`, which `raise_for_status`
errors also are), a body that is not JSON (`resp.json()` raises
`requests.exceptions.JSONDecodeError`, a subclass of `InvalidJSONError`
and hence of `RequestException` in every `requests` release since 2.27),
a JSON array, a JSON object, or any other JSON value. -/
inductive NetResult where
  | netErr
  | badJson
  | listResp (records : List RawRec)
  | dictResp (fields : List (String × RawRec))
  | otherResp
deriving Repr

/-- Embedding of the dict branch shared verbatim by both `fetch_day`s
(`fetch_iroquois_oac.py` 131-134, `update_db.py` 136-138):

  `records = [raw[k] for k in sorted(raw.keys(), key=lambda x: int(x))
              if str(x).isdigit()]`

`sorted` evaluates `int(k)` for every key first, so any key `int` rejects
raises `ValueError` there.  The comprehension's filter then tests `str(x)`,
but `x` is *unbound* at that point (the lambda's `x` is local to the
lambda), so evaluating the filter for the first element raises `NameError`;
hence every nonempty all-numeric-keyed dict raises `NameError` before any
record is produced, and only the empty dict yields a list (the empty one). -/
def flattenDict (fields : List (String × RawRec)) : Except PyExc (List RawRec) :=
  match fields.mapM (fun kv => (pyInt kv.1).map (fun n => (n, kv.2))) with
  | Option.none => .error .valueError
  | some keyed =>
      match keyed with
      | [] => .ok []
      | _ :: _ => .error .nameError

/-- `MAX_RETRIES`, identical in both scraper scripts. -/
def MAX_RETRIES : Nat := 4

/-- What a `fetch_day` call did: the value it returned (or the exception
that escaped it), how many attempts it made, and the back-off sleeps
performed between attempts, in seconds. -/
structure FetchTrace where
  result : Except PyExc (List RawRec)
  attempts : Nat
  sleeps : List Nat
deriving Repr

/-- The retry loop shared by both `fetch_day` implementations
(`fetch_iroquois_oac.py` 121-168, `update_db.py` 128-166), abstracted over
the per-file record-processing loop `proc`.  `oracle n` is the outcome of
attempt `n` (numbered from 1).  On a `RequestException` the loop computes
`wait = 2 ** attempt`; if this was the last allowed attempt it returns `[]`
(the date is skipped), otherwise it sleeps `wait` seconds and retries.
Because `resp.json()` raises `requests.exceptions.JSONDecodeError`, a
`RequestException` subclass, and the `except
requests.exceptions.RequestException` handler is listed first, a
malformed-JSON body takes the same retry-with-backoff path as a transport
error; the `except (ValueError, KeyError)` handler is only reached by
exceptions raised after decoding - the `ValueError` from `int()` on a
non-numeric dict key inside `sorted` - and yields `[]` with no retry.  A
JSON value that is neither list nor dict returns `[]` directly.  A dict
body goes through `flattenDict`, whose `ValueError` is caught as above
while any other exception propagates out of `fetch_day`. -/
def fetchDayAux (oracle : Nat → NetResult) (proc : List RawRec → List RawRec) :
    Nat → Nat → List Nat → FetchTrace
  | attempt, 0, sleeps => ⟨.ok [], attempt - 1, sleeps⟩
  | attempt, remaining + 1, sleeps =>
    match oracle attempt with
    | .netErr =>
        if remaining = 0 then ⟨.ok [], attempt, sleeps⟩
        else fetchDayAux oracle proc (attempt + 1) remaining (sleeps ++ [2 ^ attempt])
    | .badJson =>
        if remaining = 0 then ⟨.ok [], attempt, sleeps⟩
        else fetchDayAux oracle proc (attempt + 1) remaining (sleeps ++ [2 ^ attempt])
    | .otherResp => ⟨.ok [], attempt, sleeps⟩
    | .listResp records => ⟨.ok (proc records), attempt, sleeps⟩
    | .dictResp fields =>
        match flattenDict fields with
        | .ok records => ⟨.ok (proc records), attempt, sleeps⟩
        | .error .valueError => ⟨.ok [], attempt, sleeps⟩
        | .error .keyError => ⟨.ok [], attempt, sleeps⟩
        | .error e => ⟨.error e, attempt, sleeps⟩

/-- `update_db.fetch_day` for a query date, against an attempt oracle. -/
def UpdateDb.fetchDay (oracle : Nat → NetResult) (d : Date) : FetchTrace :=
  fetchDayAux oracle (UpdateDb.processRecs d.iso) 1 MAX_RETRIES []

/-- `fetch_iroquois_oac.fetch_day` for a query date, against an oracle. -/
def FetchCsv.fetchDay (oracle : Nat → NetResult) (d : Date) : FetchTrace :=
  fetchDayAux oracle (FetchCsv.processRecs d.iso) 1 MAX_RETRIES []

/-- `update_db.LOOKBACK_DAYS`. -/
def LOOKBACK_DAYS : Nat := 3

/-- Embedding of `update_db.main` (lines 182-202), abstracted over the
store state, the store's upsert operation (the remote collaborator) and the
per-date fetch results.  The window is computed from `today` alone -
`[today - timedelta(days=i) for i in range(LOOKBACK_DAYS)]`, reversed to
oldest-first - and the store is never consulted when choosing it.  Returns
the list of dates passed to `fetch_day` in call order, and the store after
the run (`upsert` is called only when a date returned records). -/
def updaterRun (upsert : List RawRec → List RawRec → List RawRec)
    (store : List RawRec) (fetch : Date → List RawRec) (today : Date) :
    List Date × List RawRec :=
  let dates := ((List.range LOOKBACK_DAYS).map (fun i => today.subDays i)).reverse
  (dates,
    dates.foldl
      (fun st d =>
        let records := fetch d
        if records.isEmpty then st else upsert st records)
      store)

namespace Loader

/-- `load_csv_to_supabase.BATCH_SIZE`. -/
def BATCH_SIZE : Nat := 500

/-- Python's `range(start, stop, step)` for a positive step: the batch
start offsets iterated by `upsert_batches`.  The element count is
`ceil((stop - start) / step)`. -/
def pyRange (start stop step : Nat) : List Nat :=
  List.range' start ((stop - start + step - 1) / step) step

/-- The final report of `upsert_batches`: rows written, rows in failed
batches, and the size of each upsert call actually issued, in order. -/
structure Report where
  written : Nat
  errors : Nat
  calls : List Nat
deriving DecidableEq, Repr

/-- One iteration of the `upsert_batches` loop at batch offset `i`: the
batch is the slice `rows[i : i + BATCH_SIZE]`; the upsert call for it is
always issued (its size is appended to `calls`), and the `try` around the
single call (`except Exception`, which catches every exception) routes the
batch size into either the written or the error count - `failing i` says
whether the call for the batch at offset `i` raises. -/
def upsertStep (failing : Nat → Bool) (rows : List α)
    (acc : Report) (i : Nat) : Report :=
  let batch := (rows.drop i).take BATCH_SIZE
  if failing i then
    { acc with
        errors := acc.errors + batch.length,
        calls := acc.calls ++ [batch.length] }
  else
    { acc with
        written := acc.written + batch.length,
        calls := acc.calls ++ [batch.length] }

/-- Embedding of `load_csv_to_supabase.upsert_batches` (lines 123-142):
`for i in range(0, total, BATCH_SIZE)` submit `rows[i : i + BATCH_SIZE]`,
counting written rows and errored rows; every batch is submitted regardless
of earlier failures, and the function always returns a report. -/
def upsertBatches (failing : Nat → Bool) (rows : List α) : Report :=
  (pyRange 0 rows.length BATCH_SIZE).foldl (upsertStep failing rows) ⟨0, 0, []⟩

end Loader

namespace Backfill

/-- A durable output row, abstracted to the fields of the uniqueness key
plus an opaque payload for the remaining columns.  `gas_date` is a day
ordinal: the scraper's cursor moves one day at a time and dates are only
ever compared for equality through their `%Y-%m-%d` strings, which is
injective, so day ordinals are a faithful abstraction. -/
structure BRow where
  gas_date : Nat
  loc : String
  loc_purp_desc : String
  flow_ind_desc : String
  payload : String
deriving DecidableEq, Repr

/-- The natural key `(gas_date, loc, loc_purp_desc, flow_ind_desc)`. -/
def key (r : BRow) : Nat × String × String × String :=
  (r.gas_date, r.loc, r.loc_purp_desc, r.flow_ind_desc)

/-- The scraper's durable output file: absent from disk, or on disk with a
flag recording whether the CSV header line made it to disk, plus the data
rows.  Flushing is modelled at whole-row granularity; the header line is
written into the buffer before any row, so any durable prefix that is
nonempty includes the header. -/
inductive CsvFile where
  | absent
  | present (hasHeader : Bool) (rows : List BRow)
deriving DecidableEq, Repr

/-- Whether the header line is on disk (an absent file has none). -/
def CsvFile.hasHeader : CsvFile → Bool
  | .absent => false
  | .present h _ => h

/-- The data rows on disk. -/
def CsvFile.rows : CsvFile → List BRow
  | .absent => []
  | .present _ rs => rs

/-- `os.path.exists(OUTPUT_FILE)`. -/
def CsvFile.onDisk : CsvFile → Bool
  | .absent => false
  | .present _ _ => true

/-- `get_existing_dates` (`fetch_iroquois_oac.py` 171-185).  A missing file
yields the empty set.  `csv.DictReader` takes its fieldnames from the first
line of the file: an empty file gives `fieldnames = None`, and a headerless
file reads its *first data row* as the header - whose cells are a
`%Y-%m-%d` date string, a location id and other data values, never the
literal column name `"gas_date"` - so in both cases the guard
`reader.fieldnames and "gas_date" in reader.fieldnames` fails and the scan
returns the empty set.  Only a file whose header line is on disk is scanned
into its set of `gas_date` values.  (The `except Exception` branch, reached
on an I/O failure mid-scan, returns the partially collected subset; it can
only enlarge the todo list further and needs no dedicated state for the
behaviour exhibited below.) -/
def existingDates : CsvFile → List Nat
  | .present true rows => rows.map (·.gas_date)
  | _ => []

/-- The todo list built by `main` (lines 229-234): every date of
`[start, endD]` whose `gas_date` the scan did not report. -/
def todoDates (start endD : Nat) (f : CsvFile) : List Nat :=
  (List.range' start (endD + 1 - start)).filter
    (fun d => !(existingDates f).contains d)

/-- One backfill invocation: its per-date source answers, its end date
(`today` at the time of the run) and its crash point - `none` for a run
that completed, `some k` for a process killed after `k` appended rows had
become durable. -/
structure RunSpec where
  fetch : Nat → List BRow
  endD : Nat
  crash : Option Nat

/-- Embedding of `main` (`fetch_iroquois_oac.py` 215-267).  If the todo
list is empty, `main` returns before opening the file, leaving it exactly
as it was (even absent).  Otherwise the file is opened in append mode -
creating it on disk when absent - and
`file_exists = bool(existing) or os.path.exists(OUTPUT_FILE)` decides the
header: a nonempty scan implies the file is on disk, so `file_exists` is
just `os.path.exists`, and the header is buffered only for a file not
previously on disk.  Each todo date is fetched once and its rows appended;
the buffer is flushed after every date and on normal close, and the
buffered header precedes all buffered rows.  Hence on a completed run the
appended rows and any buffered header are durable; on a crash, a prefix of
the planned rows is durable and the header became durable exactly when
some flush happened, i.e. when that prefix is nonempty - in particular a
run killed before its first flush leaves the file on disk but empty and
headerless. -/
def run (start : Nat) (r : RunSpec) (f : CsvFile) : CsvFile :=
  let todo := todoDates start r.endD f
  if todo.isEmpty then f
  else
    let planned := todo.flatMap r.fetch
    let writesHeader := !f.onDisk
    match r.crash with
    | Option.none => .present (f.hasHeader || writesHeader) (f.rows ++ planned)
    | some k =>
        .present (f.hasHeader || (writesHeader && !(planned.take k).isEmpty))
          (f.rows ++ planned.take k)

/-- A sequence of backfill runs starting before the output file first
exists; each run has its own source behaviour (the endpoint may answer
differently each time), its own end date (`today` moves between runs) and
its own crash point. -/
def backfillRuns (start : Nat) (rs : List RunSpec) : CsvFile :=
  rs.foldl (fun f r => run start r f) .absent

end Backfill

end Spec2Proof

namespace Spec2Proof

/-- C3 -/
theorem c3_clean_numeric_spec :
    UpdateDb.clean_numeric (.str "12,345") = .int 12345 ∧
    UpdateDb.clean_numeric (.str "") = .none ∧
    UpdateDb.clean_numeric (.str "3.5") = .float (mkRat 7 2) ∧
    (∀ s : String, s ≠ "" →
      pyInt (pyStrip (stripCommas s)) = Option.none →
      pyFloat (pyStrip (stripCommas s)) = Option.none →
      UpdateDb.clean_numeric (.str s) = .str s) := by
  refine ⟨by decide, by decide, by decide, ?_⟩
  intro s hs hi hf
  simp [UpdateDb.clean_numeric, hi, hf, hs]

/-- C3 witness: the general leave-unchanged clause at the concrete
unparsable string `"n/a"`. -/
theorem c3_clean_numeric_spec_witness :
    UpdateDb.clean_numeric (.str "n/a") = .str "n/a" :=
  c3_clean_numeric_spec.2.2.2 "n/a" (by decide) (by decide) (by decide)

/-- C6: the incremental updater with its default lookback of 3, run when
today is 2025-06-10, passes exactly the dates 2025-06-08, 2025-06-09,
2025-06-10 to `fetch_day`, oldest first, whatever the store contains and
however the store's upsert behaves (the window is computed from `today`
alone, so every date in it is re-fetched even if already stored). -/
theorem c6_updater_window (upsert : List RawRec → List RawRec → List RawRec)
    (store : List RawRec) (fetch : Date → List RawRec) :
    (updaterRun upsert store fetch ⟨2025, 6, 10⟩).1 =
      [⟨2025, 6, 8⟩, ⟨2025, 6, 9⟩, ⟨2025, 6, 10⟩] := rfl

/-- C2: evaluating `fetch_day` at the response `{"1": rec1, "0": rec0}`
does not produce `[rec0, rec1]` - the comprehension's filter references the
unbound name `x`, so the call raises `NameError` (first conjunct); and a
dict with a non-numeric key is not flattened with that key ignored but makes
`sorted`'s key function raise `ValueError`, which the parse-error handler
turns into "no data", `[]` (second conjunct). -/
theorem c2_dict_flatten_raises :
    (UpdateDb.fetchDay
        (fun _ => .dictResp
          [("1", [("Loc", .str "B")]), ("0", [("Loc", .str "A")])])
        ⟨2025, 1, 1⟩).result = .error .nameError ∧
    (UpdateDb.fetchDay
        (fun _ => .dictResp
          [("0", [("Loc", .str "A")]), ("foo", [("Loc", .str "B")])])
        ⟨2025, 1, 1⟩).result = .ok [] := ⟨rfl, rfl⟩

/-- C5: re-running is not idempotent in a reachable state.  Run 1 over the
range `[0, 0]` is killed before its first flush, leaving the file on disk,
empty and headerless; run 2 scans it (`fieldnames` is `None`, the guard
fails), sees the file on disk so writes no header, fetches day 0 and
appends its row headerless, then completes.  The resulting durable output
contains a row for every date of the range - yet, the data being
headerless, a further run's scan reads the first data row as the header
line, finds no `gas_date` column, reports the empty set, issues a fetch
for day 0 (its todo list is `[0]`, not `[]`) and appends, changing the
file. -/
theorem c5_rerun_not_idempotent :
    (∀ d ∈ List.range' 0 1,
      d ∈ (Backfill.backfillRuns 0
          [⟨fun d => [⟨d, "A", "P", "F", "x"⟩], 0, some 0⟩,
           ⟨fun d => [⟨d, "A", "P", "F", "x"⟩], 0, Option.none⟩]).rows.map
          (fun r => r.gas_date)) ∧
    Backfill.todoDates 0 0
        (Backfill.backfillRuns 0
          [⟨fun d => [⟨d, "A", "P", "F", "x"⟩], 0, some 0⟩,
           ⟨fun d => [⟨d, "A", "P", "F", "x"⟩], 0, Option.none⟩]) = [0] ∧
    Backfill.run 0 ⟨fun d => [⟨d, "A", "P", "F", "x"⟩], 0, Option.none⟩
        (Backfill.backfillRuns 0
          [⟨fun d => [⟨d, "A", "P", "F", "x"⟩], 0, some 0⟩,
           ⟨fun d => [⟨d, "A", "P", "F", "x"⟩], 0, Option.none⟩])
      ≠ Backfill.backfillRuns 0
          [⟨fun d => [⟨d, "A", "P", "F", "x"⟩], 0, some 0⟩,
           ⟨fun d => [⟨d, "A", "P", "F", "x"⟩], 0, Option.none⟩] :=
  ⟨by decide, by decide, by decide⟩

/-- `update_db.clean_numeric` never returns the empty string: a string that
parses becomes an `int`/`float`, the empty string becomes `None`, any other
unparsable string is returned as itself (nonempty), and non-strings pass
through unchanged. -/
theorem clean_numeric_ne_empty (v : Val) :
    UpdateDb.clean_numeric v ≠ .str "" := by
  intro h
  cases v with
  | none => exact Val.noConfusion h
  | int n => exact Val.noConfusion h
  | float q => exact Val.noConfusion h
  | str s =>
    simp only [UpdateDb.clean_numeric] at h
    rcases hpi : pyInt (pyStrip (stripCommas s)) with _ | n <;> rw [hpi] at h
    · rcases hpf : pyFloat (pyStrip (stripCommas s)) with _ | q <;> rw [hpf] at h
      · by_cases hs : s = ""
        · rw [if_pos hs] at h; exact Val.noConfusion h
        · rw [if_neg hs] at h
          exact hs (Val.str.inj h)
      · exact Val.noConfusion h
    · exact Val.noConfusion h

/-- `val or None` never yields the empty string: a falsy value (which `""`
is) becomes `None`, and a truthy one is by definition not `""`. -/
theorem pyOrNone_ne_empty (v : Val) : pyOrNone v ≠ .str "" := by
  intro h
  rw [pyOrNone] at h
  by_cases ht : pyTruthy v
  · rw [if_pos ht] at h
    rw [h] at ht
    simp [pyTruthy] at ht
  · rw [if_neg ht] at h
    exact Val.noConfusion h

/-- C4 counterexample: in `fetch_iroquois_oac.fetch_day`, a raw record with
no fields at all (so in particular `"Loc"` is absent and `statusCode` is
absent, hence the record is kept) produces an output record whose `"Loc"`
field is the *string* `""`, not an absence. -/
theorem c4_counterexample :
    FetchCsv.processRecs "2025-01-01" [[]] =
      [FetchCsv.buildRow "2025-01-01" []] ∧
    pyGet (FetchCsv.buildRow "2025-01-01" []) "Loc" = some (.str "") :=
  ⟨rfl, rfl⟩

/-- C4 as amended: the null-normalization holds of the *incremental
updater's* `fetch_day` (`update_db.py`): a canonical field whose source
field is absent or the empty string is bound to `None` in the built row,
and no field of a built row is ever the string `""` (the `gas_date` string
of a real call, `d.strftime("%Y-%m-%d")`, is never empty).  The CSV
scraper's `fetch_day` instead writes `""` for absent fields. -/
theorem c4_amended_null_normalization :
    (∀ (g : String) (rec : RawRec) (p : String × String),
      p ∈ UpdateDb.COL_MAP →
      (pyGet rec p.1 = Option.none ∨ pyGet rec p.1 = some (.str "")) →
      (p.2, Val.none) ∈ UpdateDb.buildRow g rec) ∧
    (∀ (g : String) (rec : RawRec) (kv : String × Val),
      g ≠ "" → kv ∈ UpdateDb.buildRow g rec → kv.2 ≠ .str "") := by
  constructor
  · intro g rec p hp hval
    have hv : (pyGet rec p.1).getD (.str "") = .str "" := by
      rcases hval with h | h <;> rw [h] <;> rfl
    apply List.mem_cons_of_mem
    apply List.mem_map.mpr
    refine ⟨p, hp, ?_⟩
    rw [hv]
    by_cases hc : UpdateDb.NUMERIC_COLS.contains p.2
    · rw [if_pos hc]
      exact congrArg (Prod.mk p.2) (by decide)
    · rw [if_neg hc]
      exact congrArg (Prod.mk p.2) (by decide)
  · intro g rec kv hg hkv h2
    rcases List.mem_cons.mp hkv with h | h
    · rw [h] at h2
      exact hg (Val.str.inj h2)
    · rcases List.mem_map.mp h with ⟨p, _, hpe⟩
      rw [← hpe] at h2
      simp only at h2
      by_cases hc : UpdateDb.NUMERIC_COLS.contains p.2
      · rw [if_pos hc] at h2
        exact clean_numeric_ne_empty _ h2
      · rw [if_neg hc] at h2
        exact pyOrNone_ne_empty _ h2

/-- C4 amended witness: the field `"Loc"` is absent from the empty raw
record, and the built row binds `loc` to `None`. -/
theorem c4_amended_null_normalization_witness :
    ("loc", Val.none) ∈ UpdateDb.buildRow "2025-01-01" [] :=
  c4_amended_null_normalization.1 "2025-01-01" [] ("Loc", "loc")
    (by decide) (Or.inl rfl)

/-- C7 counterexample: a decode error does *not* yield the empty list with
no retry.  `resp.json()` raises `requests.exceptions.JSONDecodeError`, a
`RequestException` subclass caught by the first handler, so a persistently
malformed body is retried with backoff: 4 attempts and sleeps of 2, 4 and
8 seconds - not the 1 attempt and no sleep the claim states. -/
theorem c7_decode_error_retried :
    UpdateDb.fetchDay (fun _ => .badJson) ⟨2025, 1, 1⟩ =
      ⟨.ok [], 4, [2, 4, 8]⟩ ∧
    (UpdateDb.fetchDay (fun _ => .badJson) ⟨2025, 1, 1⟩).attempts ≠ 1 ∧
    (UpdateDb.fetchDay (fun _ => .badJson) ⟨2025, 1, 1⟩).sleeps ≠ [] :=
  ⟨rfl, by decide, by decide⟩

/-- C7 as amended: for any query date, (i) when every attempt fails with a
`RequestException` - a transport error or a malformed JSON body, since
`requests.exceptions.JSONDecodeError` is a `RequestException` subclass
caught by the first handler - `fetch_day` makes exactly `MAX_RETRIES` (4)
attempts, sleeping `2 ** attempt` seconds between consecutive attempts
(2 s, 4 s, 8 s - no sleep after the last), and returns the empty list
instead of raising; (ii) a response of unexpected shape (valid JSON that is
neither array nor object) yields the empty list with no retry and no
sleep; (iii) so does a `ValueError` raised while flattening a dict body
(a non-numeric key hitting `int()` inside `sorted`), via the
`except (ValueError, KeyError)` handler. -/
theorem c7_amended_retry (d : Date) (oracle : Nat → NetResult) :
    ((∀ n, oracle n = .netErr ∨ oracle n = .badJson) →
      UpdateDb.fetchDay oracle d = ⟨.ok [], MAX_RETRIES, [2, 4, 8]⟩) ∧
    (oracle 1 = .otherResp → UpdateDb.fetchDay oracle d = ⟨.ok [], 1, []⟩) ∧
    (∀ fields, oracle 1 = .dictResp fields →
      flattenDict fields = .error .valueError →
      UpdateDb.fetchDay oracle d = ⟨.ok [], 1, []⟩) := by
  refine ⟨?_, ?_, ?_⟩
  · intro h
    rcases h 1 with h1 | h1 <;> rcases h 2 with h2 | h2 <;>
      rcases h 3 with h3 | h3 <;> rcases h 4 with h4 | h4 <;>
      simp [UpdateDb.fetchDay, MAX_RETRIES, fetchDayAux, h1, h2, h3, h4]
  · intro h
    simp [UpdateDb.fetchDay, MAX_RETRIES, fetchDayAux, h]
  · intro fields h hflat
    simp [UpdateDb.fetchDay, MAX_RETRIES, fetchDayAux, h, hflat]

/-- C7 amended witness: an oracle whose first two attempts return malformed
JSON and whose last two fail in transport, at a concrete date. -/
theorem c7_amended_retry_witness :
    UpdateDb.fetchDay (fun n => if n ≤ 2 then .badJson else .netErr)
        ⟨2025, 1, 2⟩ =
      ⟨.ok [], MAX_RETRIES, [2, 4, 8]⟩ :=
  (c7_amended_retry ⟨2025, 1, 2⟩ _).1
    (fun n => by by_cases hn : n ≤ 2 <;> simp [hn])

/-- Any list a `fetch_day` call returns (rather than raising) is either
empty or the record-processing loop applied to some decoded record list. -/
theorem fetchDayAux_ok_shape (oracle : Nat → NetResult)
    (proc : List RawRec → List RawRec) (attempt remaining : Nat)
    (sleeps : List Nat) (rows : List RawRec)
    (h : (fetchDayAux oracle proc attempt remaining sleeps).result = .ok rows) :
    rows = [] ∨ ∃ recs, rows = proc recs := by
  induction remaining generalizing attempt sleeps with
  | zero =>
    simp only [fetchDayAux] at h
    exact Or.inl (Except.ok.inj h).symm
  | succ r ih =>
    simp only [fetchDayAux] at h
    split at h
    · split at h
      · exact Or.inl (Except.ok.inj h).symm
      · exact ih _ _ h
    · split at h
      · exact Or.inl (Except.ok.inj h).symm
      · exact ih _ _ h
    · exact Or.inl (Except.ok.inj h).symm
    · rename_i records _
      exact Or.inr ⟨records, (Except.ok.inj h).symm⟩
    · split at h
      · rename_i records _
        exact Or.inr ⟨records, (Except.ok.inj h).symm⟩
      · exact Or.inl (Except.ok.inj h).symm
      · exact Or.inl (Except.ok.inj h).symm
      · exact Except.noConfusion h

/-- The keys of a row built by `update_db.fetch_day` are exactly
`gas_date` followed by the mapped store columns, in order. -/
theorem updateDb_buildRow_keys (g : String) (rec : RawRec) :
    (UpdateDb.buildRow g rec).map Prod.fst =
      "gas_date" :: UpdateDb.COL_MAP.map Prod.snd := rfl

/-- The `gas_date` field of a built row is the formatted query date. -/
theorem updateDb_buildRow_gas_date (g : String) (rec : RawRec) :
    pyGet (UpdateDb.buildRow g rec) "gas_date" = some (.str g) := rfl

/-- Same key shape for `fetch_iroquois_oac.fetch_day`: its rows carry
exactly the CSV header columns. -/
theorem fetchCsv_buildRow_keys (g : String) (rec : RawRec) :
    (FetchCsv.buildRow g rec).map Prod.fst = FetchCsv.CSV_COLUMNS := rfl

/-- The `gas_date` field of a CSV row is the formatted query date. -/
theorem fetchCsv_buildRow_gas_date (g : String) (rec : RawRec) :
    pyGet (FetchCsv.buildRow g rec) "gas_date" = some (.str g) := rfl

/-- C9: every record a `fetch_day` call returns has exactly the fixed
canonical key set (`gas_date` plus the fourteen mapped columns - the
snake-case store columns for `update_db`, the CSV header columns for
`fetch_iroquois_oac`), and its `gas_date` always equals the
`%Y-%m-%d`-formatted query date, whatever the raw response contained. -/
theorem c9_fetchday_record_shape :
    (∀ (oracle : Nat → NetResult) (d : Date) (rows : List RawRec)
        (row : RawRec),
      (UpdateDb.fetchDay oracle d).result = .ok rows → row ∈ rows →
      row.map Prod.fst = "gas_date" :: UpdateDb.COL_MAP.map Prod.snd ∧
      pyGet row "gas_date" = some (.str d.iso)) ∧
    (∀ (oracle : Nat → NetResult) (d : Date) (rows : List RawRec)
        (row : RawRec),
      (FetchCsv.fetchDay oracle d).result = .ok rows → row ∈ rows →
      row.map Prod.fst = FetchCsv.CSV_COLUMNS ∧
      pyGet row "gas_date" = some (.str d.iso)) := by
  constructor
  · intro oracle d rows row hres hrow
    rcases fetchDayAux_ok_shape _ _ _ _ _ _ hres with rfl | ⟨recs, rfl⟩
    · exact absurd hrow (List.not_mem_nil row)
    · rcases List.mem_map.mp hrow with ⟨rec, _, rfl⟩
      exact ⟨updateDb_buildRow_keys _ _, updateDb_buildRow_gas_date _ _⟩
  · intro oracle d rows row hres hrow
    rcases fetchDayAux_ok_shape _ _ _ _ _ _ hres with rfl | ⟨recs, rfl⟩
    · exact absurd hrow (List.not_mem_nil row)
    · rcases List.mem_map.mp hrow with ⟨rec, _, rfl⟩
      exact ⟨fetchCsv_buildRow_keys _ _, fetchCsv_buildRow_gas_date _ _⟩

/-- C9 witness: a successful first attempt returning one empty raw record
(which is kept, since `statusCode` is absent). -/
theorem c9_fetchday_record_shape_witness :
    (UpdateDb.buildRow (Date.iso ⟨2025, 1, 2⟩) []).map Prod.fst =
        "gas_date" :: UpdateDb.COL_MAP.map Prod.snd ∧
    pyGet (UpdateDb.buildRow (Date.iso ⟨2025, 1, 2⟩) []) "gas_date" =
        some (.str (Date.iso ⟨2025, 1, 2⟩)) :=
  c9_fetchday_record_shape.1 (fun _ => .listResp [[]]) ⟨2025, 1, 2⟩
    (UpdateDb.processRecs (Date.iso ⟨2025, 1, 2⟩) [[]])
    (UpdateDb.buildRow (Date.iso ⟨2025, 1, 2⟩) []) rfl (by decide)

/-- The upsert calls issued by the batching loop are one per batch offset,
each of the size of that offset's slice, regardless of which batches
fail. -/
theorem upsert_foldl_calls (failing : Nat → Bool) (rows : List α)
    (l : List Nat) (acc : Loader.Report) :
    (l.foldl (Loader.upsertStep failing rows) acc).calls
      = acc.calls
        ++ l.map (fun i => ((rows.drop i).take Loader.BATCH_SIZE).length) := by
  induction l generalizing acc with
  | nil => simp
  | cons i l ih =>
    rw [List.foldl_cons, ih]
    have hstep : (Loader.upsertStep failing rows acc i).calls
        = acc.calls ++ [((rows.drop i).take Loader.BATCH_SIZE).length] := by
      by_cases hf : failing i <;> simp [Loader.upsertStep, hf]
    rw [hstep, List.map_cons]
    simp

/-- Rows written plus rows in failed batches account for every sliced
row exactly once. -/
theorem upsert_foldl_total (failing : Nat → Bool) (rows : List α)
    (l : List Nat) (acc : Loader.Report) :
    (l.foldl (Loader.upsertStep failing rows) acc).written
        + (l.foldl (Loader.upsertStep failing rows) acc).errors
      = acc.written + acc.errors
        + (l.map (fun i => ((rows.drop i).take Loader.BATCH_SIZE).length)).sum := by
  induction l generalizing acc with
  | nil => simp
  | cons i l ih =>
    rw [List.foldl_cons, ih, List.map_cons, List.sum_cons]
    by_cases hf : failing i <;> simp [Loader.upsertStep, hf] <;> omega

/-- Summing `min n (len - i)` over `c` offsets `s, s+n, s+2n, …` covers
`min (len - s) (c * n)` elements. -/
theorem range'_min_sum (n len : Nat) :
    ∀ (c s : Nat),
      ((List.range' s c n).map (fun i => min n (len - i))).sum
        = min (len - s) (c * n) := by
  intro c
  induction c with
  | zero => intro s; simp
  | succ c ih =>
    intro s
    rw [List.range'_succ, List.map_cons, List.sum_cons, ih (s + n),
        Nat.succ_mul]
    omega

/-- C8: `upsert_batches` on 1,200 records with the fixed batch size of 500
issues exactly three upsert calls, of sizes 500, 500 and 200, whatever
subset of the batches fails - a failing batch never prevents the remaining
batches from being submitted. -/
theorem c8_batching (failing : Nat → Bool) (rows : List α)
    (hlen : rows.length = 1200) :
    (Loader.upsertBatches failing rows).calls = [500, 500, 200] := by
  rw [Loader.upsertBatches, upsert_foldl_calls]
  have hr : Loader.pyRange 0 rows.length Loader.BATCH_SIZE
      = [0, 500, 1000] := by
    rw [hlen]; rfl
  rw [hr]
  simp only [List.map_cons, List.map_nil, List.length_take, List.length_drop,
    hlen, Loader.BATCH_SIZE]
  rfl

/-- C8 witness: 1,200 rows with the second batch failing. -/
theorem c8_batching_witness :
    (Loader.upsertBatches (fun i => i == 500)
        (List.replicate 1200 (0 : Nat))).calls = [500, 500, 200] :=
  c8_batching _ _ (by rw [List.length_replicate])

/-- C10: `upsert_batches` always returns a report (every exception of a
batch call is caught), the written count plus the failed-rows count equals
the number of input rows for every failure pattern, and the empty input
issues no upsert call and reports 0 written, 0 errors. -/
theorem c10_upsert_report (α : Type) :
    (∀ (failing : Nat → Bool) (rows : List α),
      (Loader.upsertBatches failing rows).written
          + (Loader.upsertBatches failing rows).errors = rows.length) ∧
    (∀ failing : Nat → Bool,
      Loader.upsertBatches failing ([] : List α) = ⟨0, 0, []⟩) := by
  constructor
  · intro failing rows
    rw [Loader.upsertBatches, upsert_foldl_total]
    simp only [List.length_take, List.length_drop]
    rw [Loader.pyRange, range'_min_sum]
    have hd := Nat.div_add_mod (rows.length + Loader.BATCH_SIZE - 1)
      Loader.BATCH_SIZE
    have hm : (rows.length + Loader.BATCH_SIZE - 1) % Loader.BATCH_SIZE
        < Loader.BATCH_SIZE := Nat.mod_lt _ (by decide)
    simp only [Loader.BATCH_SIZE] at hd hm ⊢
    omega
  · intro failing
    simp [Loader.upsertBatches, Loader.pyRange, Loader.BATCH_SIZE]

/-- C1: the uniqueness invariant is violated by a reachable crash/resume
sequence.  Run 1 (today = day 0, one source row per date) is killed before
its first flush: the file is created but left empty and headerless.  Run 2
scans it (`fieldnames` is `None`, the guard fails, empty set), sees the
file on disk so writes no header, fetches day 0 and appends its row
headerless.  Run 3's scan consumes that data row as the header line, finds
no `gas_date` column, reports the empty set, fetches day 0 again and
appends a second row with the same
`(gas_date, loc, loc_purp_desc, flow_ind_desc)` key - even though the
source returned at most one row per key for each date in every run. -/
theorem c1_resume_duplicates_key :
    (Backfill.backfillRuns 0
        [⟨fun d => [⟨d, "A", "P", "F", "x"⟩], 0, some 0⟩,
         ⟨fun d => [⟨d, "A", "P", "F", "x"⟩], 0, Option.none⟩,
         ⟨fun d => [⟨d, "A", "P", "F", "x"⟩], 0, Option.none⟩]).rows
      = [⟨0, "A", "P", "F", "x"⟩, ⟨0, "A", "P", "F", "x"⟩] ∧
    ¬ ((Backfill.backfillRuns 0
        [⟨fun d => [⟨d, "A", "P", "F", "x"⟩], 0, some 0⟩,
         ⟨fun d => [⟨d, "A", "P", "F", "x"⟩], 0, Option.none⟩,
         ⟨fun d => [⟨d, "A", "P", "F", "x"⟩], 0, Option.none⟩]).rows.map
        Backfill.key).Nodup :=
  ⟨by decide, by decide⟩

end Spec2Proof
